import Mathlib

/-!
Shallow embedding of the JWT token-lifecycle core of the
`authentication-tutorial` repository (TypeScript/Express implementation):
token codec (`jsonwebtoken` sign/verify as used by the code), pair issuer
(`generateTokens`), revocation store (`invalidateToken` / `isTokenRevoked`
over Redis), the authentication middleware (`jwtAuthenticatedUser`) and the
refresh handler (`replace` in `access-token/controller`).
-/

deriving instance DecidableEq for Except

namespace AuthTutorial

/-! ## Data model: claim sets and tokens -/

inductive TokenType where
  | access
  | refresh
deriving DecidableEq, Repr

/-- The JWT payload as validated by `jwtPayloadSchema` in
`access-token/schema.ts`: `iat`, `exp` (epoch seconds), `jti` (the pairing
identifier, a uuidv7 modelled as a `Nat`), `userId`, `tokenType`. -/
structure JWTPayload where
  iat : Nat
  exp : Nat
  jti : Nat
  userId : Nat
  tokenType : TokenType
deriving DecidableEq, Repr

/-- HMAC algorithms relevant to this deployment (the configured algorithm is
`HS256` by default; `jsonwebtoken` with a string secret admits the HS family). -/
inductive Alg where
  | HS256
  | HS384
  | HS512
deriving DecidableEq, Repr

/-- A signed token: header algorithm, payload, and a symbolic MAC.  In this
symbolic model the MAC records the secret that produced it; verification
succeeds exactly when it equals the verifier's secret. -/
structure Token where
  alg : Alg
  payload : JWTPayload
  sig : Nat
deriving DecidableEq, Repr

/-- The `JWT` configuration object from `config.ts`: secret, algorithm
(default `HS256`), access-token TTL (`idExpiresIn`, default 15 minutes) and
refresh-token TTL (`refreshExpiresIn`, default 2 days), both in seconds. -/
structure Config where
  secret : Nat
  algorithm : Alg
  idExpiresIn : Nat
  refreshExpiresIn : Nat
deriving DecidableEq, Repr

/-! ## Token codec (`jsonwebtoken` as invoked by the code) -/

/-- `jwt.sign(payload, secret, { algorithm, expiresIn, jwtid })`:
the library stamps `iat = now` and `exp = now + expiresIn`. -/
def jwtSign (now expiresIn jwtid userId : Nat) (tokenType : TokenType)
    (secret : Nat) (alg : Alg) : Token :=
  { alg := alg
    payload :=
      { iat := now, exp := now + expiresIn, jti := jwtid,
        userId := userId, tokenType := tokenType }
    sig := secret }

/-- Options accepted by `jwt.verify` at the two call sites in this code base:
an optional `algorithms` allow-list, an optional required `jwtid`, and
`ignoreExpiration`. -/
structure VerifyOptions where
  algorithms : Option (List Alg)
  jwtid : Option Nat
  ignoreExpiration : Bool
deriving DecidableEq, Repr

inductive VerifyError where
  | invalidAlgorithm
  | invalidSignature
  | tokenExpired
  | jwtIdMismatch
deriving DecidableEq, Repr

/-- When no `algorithms` option is given, `jsonwebtoken` (v9, string secret)
permits the whole HMAC family, not only the configured algorithm. -/
def defaultSecretAlgorithms : List Alg := [.HS256, .HS384, .HS512]

/-- `jwt.verify(token, secret, opts)`: algorithm allow-list check, then
signature, then expiry (`TokenExpiredError` when `now ≥ exp`, unless
`ignoreExpiration`), then the `jwtid` claim when required. -/
def jwtVerify (t : Token) (secret : Nat) (opts : VerifyOptions) (now : Nat) :
    Except VerifyError JWTPayload :=
  if t.alg ∉ opts.algorithms.getD defaultSecretAlgorithms then
    .error .invalidAlgorithm
  else if t.sig ≠ secret then
    .error .invalidSignature
  else if ¬ opts.ignoreExpiration ∧ t.payload.exp ≤ now then
    .error .tokenExpired
  else
    match opts.jwtid with
    | some j => if t.payload.jti ≠ j then .error .jwtIdMismatch else .ok t.payload
    | none => .ok t.payload

/-! ## Revocation store (Redis deny-list) -/

/-- One Redis entry: key (the `jti` behind `revoked-jwt:${jti}`), the stored
value (the revocation timestamp, diagnostic only), and the absolute time at
which the entry expires from the store. -/
structure RedisEntry where
  key : Nat
  value : Nat
  expireAt : Nat
deriving DecidableEq, Repr

abbrev RedisStore := List RedisEntry

/-- `redis.exists(key)`: a key exists when some unexpired entry carries it. -/
def redisExists (s : RedisStore) (now k : Nat) : Bool :=
  s.any fun e => k = e.key ∧ now < e.expireAt

/-- `redis.set(key, value, 'EX', ttl, 'NX')`: set-if-absent with a relative
time-to-live of `ttl` seconds. -/
def redisSetNX (s : RedisStore) (now k v ttl : Nat) : RedisStore :=
  if redisExists s now k then s
  else { key := k, value := v, expireAt := now + ttl } :: s

/-- The TTL the source passes to Redis in `invalidateToken`
(`access-token/schema.ts`): literally `exp + 60`, where `exp` is the
payload's absolute epoch-seconds expiry timestamp. -/
def invalidateTokenTTL (p : JWTPayload) : Nat := p.exp + 60

/-- Modelled from the spec: §4.3 `revoke(claims)` says the record's TTL is
`claims.expiresAt − now + margin`, with a 60-second margin, so that the
record lapses once the token would have expired naturally plus the margin. -/
def specRevocationTTL (now : Nat) (p : JWTPayload) : Nat := p.exp - now + 60

/-- `invalidateToken({ jti, exp })`:
`redis.set('revoked-jwt:' + jti, timestamp, 'EX', exp + 60, 'NX')`. -/
def invalidateToken (s : RedisStore) (now : Nat) (p : JWTPayload) : RedisStore :=
  redisSetNX s now p.jti now (invalidateTokenTTL p)

/-- `isTokenRevoked({ jti })`: `redis.exists('revoked-jwt:' + jti)`. -/
def isTokenRevoked (s : RedisStore) (now : Nat) (p : JWTPayload) : Bool :=
  redisExists s now p.jti

/-! ## Pair issuer (`generateTokens`) -/

/-- `generateTokens(userId)` from `access-token/schema.ts`: one fresh
`jwtid` (uuidv7, passed here explicitly), an access token with the short TTL
and a refresh token with the long TTL, both signed with the configured
secret and algorithm. -/
def generateTokens (cfg : Config) (userId jwtid now : Nat) : Token × Token :=
  let accessToken :=
    jwtSign now cfg.idExpiresIn jwtid userId .access cfg.secret cfg.algorithm
  let refreshToken :=
    jwtSign now cfg.refreshExpiresIn jwtid userId .refresh cfg.secret cfg.algorithm
  (accessToken, refreshToken)

/-! ## Authentication middleware (`jwtAuthenticatedUser`) -/

/-- The parsed `Authorization` header: scheme word and the token that
follows it (absent when the header has no second word). -/
structure AuthHeader where
  scheme : String
  token : Option Token
deriving DecidableEq, Repr

/-- The per-request fields the middleware may attach
(`req.currentUser`, `req.jwtPayload` in `types/express.d.ts`). -/
structure RequestCtx where
  currentUser : Option Nat
  jwtPayload : Option JWTPayload
deriving DecidableEq, Repr

/-- The internal reason a request is rejected; recorded only in the server
log (`console.info`), never sent to the caller. -/
inductive RejectReason where
  | missingCredential
  | invalidOrExpiredToken (e : VerifyError)
  | revoked
  | wrongTokenType
  | principalNotFound
deriving DecidableEq, Repr

inductive AuthDecision where
  | accept (payload : JWTPayload) (user : Nat)
  | reject (reason : RejectReason)
deriving DecidableEq, Repr

/-- A JSONAPI-style error object as sent in the 401/500 response bodies. -/
structure ErrorBody where
  status : String
  title : String
  detail : String
deriving DecidableEq, Repr

/-- The single body the middleware's catch block sends for every rejection. -/
def middlewareUnauthorizedBody : ErrorBody :=
  { status := "401", title := "Unauthorized",
    detail := "Missing or invalid Authorization header" }

/-- Outcome of one middleware run: the decision, the HTTP error body when one
was sent (`none` means `next()` was called), and the request-context fields
as left by the middleware (both start unset on entry). -/
structure AuthResult where
  decision : AuthDecision
  response : Option ErrorBody
  ctx : RequestCtx
deriving DecidableEq, Repr

/-- The try block of `jwtAuthenticatedUser` from
`middleware/jwt-authenticated-user.ts`: extract the bearer token,
`jwt.verify` with no options (expiry enforced, no algorithm pin),
schema-parse, revocation check, type gate against
`req.refreshTokenIsAllowed` (unset counts as false), then the user lookup;
each failed check throws, modelled as `Except.error` with the logged
reason. -/
def jwtAuthenticatedUserTry (cfg : Config) (now : Nat) (store : RedisStore)
    (users : List Nat) (refreshTokenIsAllowed : Option Bool)
    (authorization : Option AuthHeader) : Except RejectReason (JWTPayload × Nat) :=
  match authorization with
  | none => .error .missingCredential
  | some h =>
    match h.token with
    | none => .error .missingCredential
    | some t =>
      if h.scheme ≠ "Bearer" then .error .missingCredential
      else
        match jwtVerify t cfg.secret
            { algorithms := none, jwtid := none, ignoreExpiration := false } now with
        | .error e => .error (.invalidOrExpiredToken e)
        | .ok payload =>
          if isTokenRevoked store now payload then .error .revoked
          else if payload.tokenType = .refresh ∧ refreshTokenIsAllowed.getD false = false then
            .error .wrongTokenType
          else
            match users.find? (fun u => u = payload.userId) with
            | none => .error .principalNotFound
            | some u => .ok (payload, u)

/-- `jwtAuthenticatedUser`: on a clean run of the try block, attach
`currentUser` and `jwtPayload` to the request and call `next()`; the catch
block answers every thrown error with the one generic 401 body, logging the
reason internally and leaving the request context untouched. -/
def jwtAuthenticatedUser (cfg : Config) (now : Nat) (store : RedisStore)
    (users : List Nat) (refreshTokenIsAllowed : Option Bool)
    (authorization : Option AuthHeader) : AuthResult :=
  match jwtAuthenticatedUserTry cfg now store users refreshTokenIsAllowed authorization with
  | .error r =>
    { decision := .reject r, response := some middlewareUnauthorizedBody,
      ctx := { currentUser := none, jwtPayload := none } }
  | .ok (payload, u) =>
    { decision := .accept payload u, response := none,
      ctx := { currentUser := some u, jwtPayload := some payload } }

/-! ## Route registration (access-token router, protected-resource router) -/

inductive Route where
  | login
  | refresh
  | logout
  | protectedResource
deriving DecidableEq, Repr

/-- Which routes register the `allowRefreshToken` middleware (it sets
`req.refreshTokenIsAllowed = true`): per the access-token router only the
PUT (refresh) and DELETE (logout) actions; every other route leaves the
flag unset. -/
def routeSetsRefreshAllowed : Route → Option Bool
  | .refresh => some true
  | .logout => some true
  | _ => none

/-! ## Refresh handler (`replace` in `access-token/controller`) -/

/-- The internal error taxonomy of the refresh handler's try block. -/
inductive RefreshError where
  | bodyMissing
  | verifyFailed (e : VerifyError)
  | subjectMismatch
  | typeMismatch
deriving DecidableEq, Repr

/-- Observable actions of one `replace` run, in program order. -/
inductive RefreshEvent where
  | issue (userId : Nat) (jti : Nat)
  | respond401
  | revoke (jti : Nat)
deriving DecidableEq, Repr

/-- The single body the refresh handler's catch block sends on rejection. -/
def replaceUnauthorizedBody : ErrorBody :=
  { status := "401", title := "Unauthorized", detail := "Invalid refresh token" }

/-- The 500 body sent when the middleware was not registered. -/
def replaceServerErrorBody : ErrorBody :=
  { status := "500", title := "Internal Server Error",
    detail := "Missing jwtPayload. Check middleware registration." }

inductive ReplaceResponse where
  | serverError (body : ErrorBody)
  | okTokens (accessToken refreshToken : Token)
  | unauthorized (body : ErrorBody)
deriving DecidableEq, Repr

structure ReplaceResult where
  response : ReplaceResponse
  error : Option RefreshError
  store : RedisStore
  trace : List RefreshEvent
deriving DecidableEq, Repr

/-- The try block of `replace`: parse the body token, `jwt.verify` it with
the configured algorithm pinned, expiry waived, and `jwtid` required to equal
the primary's `jti` (step 1); compare `userId` (step 2) and require distinct
`tokenType`s (step 3); on success mint the replacement pair (step 5). -/
def replaceTry (cfg : Config) (now : Nat) (p : JWTPayload)
    (body : Option Token) (freshJti : Nat) :
    Except RefreshError (Token × Token) :=
  match body with
  | none => .error .bodyMissing
  | some t =>
    match jwtVerify t cfg.secret
        { algorithms := some [cfg.algorithm], jwtid := some p.jti,
          ignoreExpiration := true } now with
    | .error e => .error (.verifyFailed e)
    | .ok verifiedPayload =>
      if verifiedPayload.userId ≠ p.userId then .error .subjectMismatch
      else if verifiedPayload.tokenType = p.tokenType then .error .typeMismatch
      else .ok (generateTokens cfg p.userId freshJti now)

/-- `replace(req, res)`: 500 when `req.jwtPayload` is undefined; otherwise
run the try block, answer 200 with the new pair or the generic 401, and in
the `finally` block always call `invalidateToken(req.jwtPayload)`.  The
trace records program order: the response is produced inside `try`/`catch`,
after which the `finally` revocation runs. -/
def replace (cfg : Config) (now : Nat) (jwtPayload : Option JWTPayload)
    (body : Option Token) (store : RedisStore) (freshJti : Nat) : ReplaceResult :=
  match jwtPayload with
  | none =>
    { response := .serverError replaceServerErrorBody, error := none,
      store := store, trace := [] }
  | some p =>
    match replaceTry cfg now p body freshJti with
    | .ok (accessToken, refreshToken) =>
      { response := .okTokens accessToken refreshToken, error := none,
        store := invalidateToken store now p,
        trace := [.issue p.userId freshJti, .revoke p.jti] }
    | .error e =>
      { response := .unauthorized replaceUnauthorizedBody, error := some e,
        store := invalidateToken store now p,
        trace := [.respond401, .revoke p.jti] }

/-! ## Basic store lemmas -/

/-- After `invalidateToken`, the pairing identifier is present in the store
(either it already was, or the set-if-absent write inserted it with a
strictly positive TTL). -/
theorem isTokenRevoked_invalidateToken (s : RedisStore) (now : Nat) (p : JWTPayload) :
    isTokenRevoked (invalidateToken s now p) now p = true := by
  unfold isTokenRevoked invalidateToken redisSetNX
  split
  · assumption
  · simp [redisExists, invalidateTokenTTL]

/-- The store after a `replace` run with an established primary payload is
the input store passed through `invalidateToken`, on both exit paths. -/
theorem replace_store_eq (cfg : Config) (now : Nat) (p : JWTPayload)
    (body : Option Token) (store : RedisStore) (freshJti : Nat) :
    (replace cfg now (some p) body store freshJti).store = invalidateToken store now p := by
  cases h : replaceTry cfg now p body freshJti with
  | ok v => obtain ⟨a, r⟩ := v; simp [replace, h]
  | error e => simp [replace, h]

/-! ## Claim theorems -/

/-- C1: whenever the refresh handler runs with a primary payload established
by the authentication middleware, the pairing identifier is in the revocation
store afterwards, on the success path and on every rejection path alike (the
revocation sits in the guaranteed-run `finally` block). -/
theorem replace_always_revokes_pairing (cfg : Config) (now : Nat) (p : JWTPayload)
    (body : Option Token) (store : RedisStore) (freshJti : Nat) :
    isTokenRevoked (replace cfg now (some p) body store freshJti).store now p = true := by
  rw [replace_store_eq]
  exact isTokenRevoked_invalidateToken store now p

/-- C2 (code bug): for a concrete claim set with `exp = 1000` revoked at
`now = 900`, the code hands Redis a relative TTL of `exp + 60 = 1060`
seconds — the absolute epoch expiry timestamp misused as a duration — while
the documented formula `expiresAt − now + margin` gives `160`; the record
therefore lives until `1960` instead of `1060`. -/
theorem invalidateTokenTTL_misuses_absolute_expiry :
    invalidateTokenTTL
      { iat := 800, exp := 1000, jti := 7, userId := 1, tokenType := .access } = 1060
    ∧ specRevocationTTL 900
      { iat := 800, exp := 1000, jti := 7, userId := 1, tokenType := .access } = 160
    ∧ (invalidateToken [] 900
        { iat := 800, exp := 1000, jti := 7, userId := 1, tokenType := .access }).map
        (fun e => e.expireAt) = [1960] := by
  decide

/-- C4: one issued pair shares a single pairing identifier and subject, the
first token is access-tagged with the short configured TTL, the second is
refresh-tagged with the long configured TTL, and the two claim sets agree on
every other field (`iat`, `jti`, `userId`) as do the signing algorithm and
key. -/
theorem generateTokens_pairing_integrity (cfg : Config) (userId jwtid now : Nat) :
    (generateTokens cfg userId jwtid now).1.payload.jti = jwtid ∧
    (generateTokens cfg userId jwtid now).2.payload.jti = jwtid ∧
    (generateTokens cfg userId jwtid now).1.payload.userId = userId ∧
    (generateTokens cfg userId jwtid now).2.payload.userId = userId ∧
    (generateTokens cfg userId jwtid now).1.payload.tokenType = .access ∧
    (generateTokens cfg userId jwtid now).2.payload.tokenType = .refresh ∧
    (generateTokens cfg userId jwtid now).1.payload.iat
      = (generateTokens cfg userId jwtid now).2.payload.iat ∧
    (generateTokens cfg userId jwtid now).1.payload.exp = now + cfg.idExpiresIn ∧
    (generateTokens cfg userId jwtid now).2.payload.exp = now + cfg.refreshExpiresIn ∧
    (generateTokens cfg userId jwtid now).1.alg = (generateTokens cfg userId jwtid now).2.alg ∧
    (generateTokens cfg userId jwtid now).1.sig = (generateTokens cfg userId jwtid now).2.sig :=
  ⟨rfl, rfl, rfl, rfl, rfl, rfl, rfl, rfl, rfl, rfl, rfl⟩

/-! ## Event classification helpers and concrete fixtures -/

def isRevokeEvent : RefreshEvent → Bool
  | .revoke _ => true
  | _ => false

def isIssueEvent : RefreshEvent → Bool
  | .issue _ _ => true
  | _ => false

/-- A concrete configuration: secret 5, HS256, 15-minute access TTL,
2-day refresh TTL (the repository defaults, in seconds). -/
def cfgEx : Config :=
  { secret := 5, algorithm := .HS256, idExpiresIn := 900, refreshExpiresIn := 172800 }

/-- The claim set of a concrete access token of pairing 7, subject 1. -/
def accessPayloadEx : JWTPayload :=
  { iat := 0, exp := 900, jti := 7, userId := 1, tokenType := .access }

/-- The refresh token of the same pairing 7, signed with the server secret. -/
def refreshTokenEx : Token :=
  { alg := .HS256,
    payload := { iat := 0, exp := 172800, jti := 7, userId := 1, tokenType := .refresh },
    sig := 5 }

/-- A token MAC'd with the shared secret but carrying header algorithm HS384
instead of the configured HS256. -/
def altAlgTokenEx : Token := { alg := .HS384, payload := accessPayloadEx, sig := 5 }

/-- C3 counterexample: a concrete successful refresh run whose trace mints
and sends the replacement pair strictly before the revoke write executes, so
the revoke does not complete before the new pair is produced. -/
theorem replace_revoke_not_before_issue_cex :
    (replace cfgEx 1000 (some accessPayloadEx) (some refreshTokenEx) [] 42).response
      = .okTokens
          { alg := .HS256,
            payload := { iat := 1000, exp := 1900, jti := 42, userId := 1, tokenType := .access },
            sig := 5 }
          { alg := .HS256,
            payload := { iat := 1000, exp := 173800, jti := 42, userId := 1, tokenType := .refresh },
            sig := 5 }
    ∧ (replace cfgEx 1000 (some accessPayloadEx) (some refreshTokenEx) [] 42).trace
      = [.issue 1 42, .revoke 7]
    ∧ ¬ ((replace cfgEx 1000 (some accessPayloadEx) (some refreshTokenEx) [] 42).trace.findIdx
            isRevokeEvent
         < (replace cfgEx 1000 (some accessPayloadEx) (some refreshTokenEx) [] 42).trace.findIdx
            isIssueEvent) := by
  decide

/-- C3 (amended): within one refresh invocation the revocation of the
retiring pairing identifier is always the handler's final action — it runs in
the `finally` block after the response is produced, so on the success path
the new pair is minted and sent BEFORE the revoke write, and on every path
the revoke event closes the trace. -/
theorem replace_revokes_after_response (cfg : Config) (now : Nat) (p : JWTPayload)
    (body : Option Token) (store : RedisStore) (freshJti : Nat) :
    (replace cfg now (some p) body store freshJti).trace.getLast? = some (.revoke p.jti) ∧
    (∀ a r, (replace cfg now (some p) body store freshJti).response = .okTokens a r →
      (replace cfg now (some p) body store freshJti).trace
        = [.issue p.userId freshJti, .revoke p.jti]) := by
  cases h : replaceTry cfg now p body freshJti with
  | ok v => obtain ⟨a, r⟩ := v; simp [replace, h]
  | error e => simp [replace, h]

theorem replace_revokes_after_response_witness :
    (replace cfgEx 1000 (some accessPayloadEx) (some refreshTokenEx) [] 42).trace.getLast?
      = some (.revoke 7) ∧
    (replace cfgEx 1000 (some accessPayloadEx) (some refreshTokenEx) [] 42).trace
      = [.issue 1 42, .revoke 7] :=
  ⟨(replace_revokes_after_response cfgEx 1000 accessPayloadEx (some refreshTokenEx) [] 42).1,
   (replace_revokes_after_response cfgEx 1000 accessPayloadEx (some refreshTokenEx) [] 42).2
     { alg := .HS256,
       payload := { iat := 1000, exp := 1900, jti := 42, userId := 1, tokenType := .access },
       sig := 5 }
     { alg := .HS256,
       payload := { iat := 1000, exp := 173800, jti := 42, userId := 1, tokenType := .refresh },
       sig := 5 }
     (by decide)⟩

/-- C5 counterexample: a token whose header algorithm (HS384) differs from
the single configured algorithm (HS256) but is MAC'd with the shared secret
is accepted by the authentication middleware, whose `jwt.verify` call passes
no `algorithms` allow-list — so algorithm-mismatch rejection does not hold at
every verification site. -/
theorem middleware_accepts_unconfigured_algorithm_cex :
    altAlgTokenEx.alg ≠ cfgEx.algorithm ∧
    (jwtAuthenticatedUser cfgEx 100 [] [1] none
        (some { scheme := "Bearer", token := some altAlgTokenEx })).decision
      = .accept accessPayloadEx 1 := by
  decide

/-- C5 (amended): algorithm pinning holds only at the refresh protocol's
verification of the secondary token, where a header algorithm different from
the configured one is rejected in step 1; the middleware's verify call names
no allow-list, so it never rejects on account of the algorithm — any
HMAC-family header algorithm passes with the shared secret. -/
theorem algorithm_pinned_at_refresh_site_only
    (cfg : Config) (now : Nat) (p : JWTPayload) (sec : Token)
    (store : RedisStore) (freshJti : Nat)
    (halg : sec.alg ≠ cfg.algorithm) :
    ((replace cfg now (some p) (some sec) store freshJti).error
        = some (.verifyFailed .invalidAlgorithm)
      ∧ (replace cfg now (some p) (some sec) store freshJti).response
        = .unauthorized replaceUnauthorizedBody)
    ∧ ∀ (t : Token) (secret otherNow : Nat),
        jwtVerify t secret
            { algorithms := none, jwtid := none, ignoreExpiration := false } otherNow
          ≠ .error .invalidAlgorithm := by
  constructor
  · have hTry : replaceTry cfg now p (some sec) freshJti
        = .error (.verifyFailed .invalidAlgorithm) := by
      unfold replaceTry jwtVerify
      simp [halg]
    simp [replace, hTry]
  · intro t secret otherNow
    unfold jwtVerify
    cases t.alg <;>
      · simp [defaultSecretAlgorithms]
        split_ifs <;> simp

theorem algorithm_pinned_at_refresh_site_only_witness :
    ((replace cfgEx 1000 (some accessPayloadEx) (some altAlgTokenEx) [] 42).error
        = some (.verifyFailed .invalidAlgorithm)
      ∧ (replace cfgEx 1000 (some accessPayloadEx) (some altAlgTokenEx) [] 42).response
        = .unauthorized replaceUnauthorizedBody)
    ∧ ∀ (t : Token) (secret otherNow : Nat),
        jwtVerify t secret
            { algorithms := none, jwtid := none, ignoreExpiration := false } otherNow
          ≠ .error .invalidAlgorithm :=
  algorithm_pinned_at_refresh_site_only cfgEx 1000 accessPayloadEx altAlgTokenEx [] 42 (by decide)

/-- The access token of pairing 7, matching `accessPayloadEx`. -/
def accessTokenEx : Token := { alg := .HS256, payload := accessPayloadEx, sig := 5 }

/-- A validly signed, unexpired refresh token of a different subject's pair:
pairing 9, subject 2, same server secret and algorithm. -/
def otherSubjectTokenEx : Token :=
  { alg := .HS256,
    payload := { iat := 0, exp := 172800, jti := 9, userId := 2, tokenType := .refresh },
    sig := 5 }

/-- C6: once a verified, non-revoked claim set reaches the type gate, a
refresh-tagged token is rejected with the wrong-token-type reason whenever
the allow-refresh flag is absent or unset (fail-closed); an access-tagged
token is never rejected by the type gate; and the flag is set precisely by
the refresh and logout routes. -/
theorem type_gate_fail_closed
    (cfg : Config) (now : Nat) (store : RedisStore) (users : List Nat)
    (flag : Option Bool) (t : Token) (payload : JWTPayload) (rt : Route)
    (hv : jwtVerify t cfg.secret
        { algorithms := none, jwtid := none, ignoreExpiration := false } now = .ok payload)
    (hr : isTokenRevoked store now payload = false) :
    (payload.tokenType = .refresh → flag.getD false = false →
      (jwtAuthenticatedUser cfg now store users flag
          (some { scheme := "Bearer", token := some t })).decision
        = .reject .wrongTokenType) ∧
    (payload.tokenType = .access →
      (jwtAuthenticatedUser cfg now store users flag
          (some { scheme := "Bearer", token := some t })).decision
        ≠ .reject .wrongTokenType) ∧
    (routeSetsRefreshAllowed rt = some true ↔ (rt = .refresh ∨ rt = .logout)) := by
  refine ⟨?_, ?_, ?_⟩
  · intro hrf hflag
    simp [jwtAuthenticatedUser, jwtAuthenticatedUserTry, hv, hr, hrf, hflag]
  · intro hac
    cases hf : users.find? (fun u => u = payload.userId) with
    | none => simp [jwtAuthenticatedUser, jwtAuthenticatedUserTry, hv, hr, hac, hf]
    | some u => simp [jwtAuthenticatedUser, jwtAuthenticatedUserTry, hv, hr, hac, hf]
  · cases rt <;> simp [routeSetsRefreshAllowed]

theorem type_gate_fail_closed_witness :
    (jwtAuthenticatedUser cfgEx 100 [] [1] none
        (some { scheme := "Bearer", token := some refreshTokenEx })).decision
      = .reject .wrongTokenType :=
  (type_gate_fail_closed cfgEx 100 [] [1] none refreshTokenEx refreshTokenEx.payload
    Route.protectedResource (by decide) (by decide)).1 (by decide) (by decide)

/-- C7: after any refresh attempt at time `now` on a pairing that was not
already revoked, resubmitting a token of the same pairing to the
authentication middleware at any later time within the revocation record's
lifetime is rejected with `Revoked` — the revocation check runs before the
type gate and principal lookup, so the refresh handler never sees that
pairing again. -/
theorem refresh_replay_rejected_revoked
    (cfg : Config) (now : Nat) (p : JWTPayload) (body : Option Token)
    (store : RedisStore) (freshJti : Nat)
    (users : List Nat) (flag : Option Bool) (t : Token) (later : Nat)
    (hfresh : redisExists store now p.jti = false)
    (hjti : t.payload.jti = p.jti)
    (hlater : later < now + p.exp + 60)
    (hv : jwtVerify t cfg.secret
        { algorithms := none, jwtid := none, ignoreExpiration := false } later
      = .ok t.payload) :
    (jwtAuthenticatedUser cfg later (replace cfg now (some p) body store freshJti).store
        users flag (some { scheme := "Bearer", token := some t })).decision
      = .reject .revoked := by
  have hlt : later < now + (p.exp + 60) := by omega
  have hrev : isTokenRevoked (replace cfg now (some p) body store freshJti).store
      later t.payload = true := by
    rw [replace_store_eq]
    unfold invalidateToken redisSetNX
    simp only [hfresh, Bool.false_eq_true, if_false]
    simp [isTokenRevoked, redisExists, invalidateTokenTTL, hjti, hlt]
  simp [jwtAuthenticatedUser, jwtAuthenticatedUserTry, hv, hrev]

theorem refresh_replay_rejected_revoked_witness :
    (jwtAuthenticatedUser cfgEx 1200
        (replace cfgEx 1000 (some accessPayloadEx) (some refreshTokenEx) [] 42).store
        [1] none (some { scheme := "Bearer", token := some refreshTokenEx })).decision
      = .reject .revoked :=
  refresh_replay_rejected_revoked cfgEx 1000 accessPayloadEx (some refreshTokenEx) [] 42
    [1] none refreshTokenEx 1200 (by decide) (by decide) (by decide) (by decide)

/-- C8 counterexample: a validly signed, unexpired secondary token from a
different subject's pair (pairing 9, subject 2) is rejected with the step-1
pairing-identifier verification error, not with the subject-mismatch error
the claim names. -/
theorem cross_subject_rejected_at_pairing_check_cex :
    (replace cfgEx 1000 (some accessPayloadEx) (some otherSubjectTokenEx) [] 42).error
      = some (.verifyFailed .jwtIdMismatch)
    ∧ (replace cfgEx 1000 (some accessPayloadEx) (some otherSubjectTokenEx) [] 42).error
      ≠ some .subjectMismatch
    ∧ (replace cfgEx 1000 (some accessPayloadEx) (some otherSubjectTokenEx) [] 42).response
      = .unauthorized replaceUnauthorizedBody := by
  decide

/-- C8 (amended): a secondary token from a different subject's valid pair is
rejected by the refresh handler, but in step 1 as an invalid refresh pair
(the `jwtid` option requires the secondary's pairing identifier to equal the
primary's, and distinct issuances never share one); the subject comparison of
step 2 is never the reported reason for such a token. -/
theorem cross_subject_rejected_as_invalid_pair
    (cfg : Config) (now : Nat) (p : JWTPayload) (sec : Token)
    (store : RedisStore) (freshJti : Nat)
    (halg : sec.alg = cfg.algorithm) (hsig : sec.sig = cfg.secret)
    (hjti : sec.payload.jti ≠ p.jti) :
    (replace cfg now (some p) (some sec) store freshJti).error
      = some (.verifyFailed .jwtIdMismatch)
    ∧ (replace cfg now (some p) (some sec) store freshJti).response
      = .unauthorized replaceUnauthorizedBody := by
  have hTry : replaceTry cfg now p (some sec) freshJti
      = .error (.verifyFailed .jwtIdMismatch) := by
    unfold replaceTry jwtVerify
    simp [halg, hsig, hjti]
  simp [replace, hTry]

theorem cross_subject_rejected_as_invalid_pair_witness :
    (replace cfgEx 1000 (some accessPayloadEx) (some otherSubjectTokenEx) [] 42).error
      = some (.verifyFailed .jwtIdMismatch)
    ∧ (replace cfgEx 1000 (some accessPayloadEx) (some otherSubjectTokenEx) [] 42).response
      = .unauthorized replaceUnauthorizedBody :=
  cross_subject_rejected_as_invalid_pair cfgEx 1000 accessPayloadEx otherSubjectTokenEx [] 42
    (by decide) (by decide) (by decide)

/-- C9 counterexample: a request rejected by the middleware's revocation
check and a request rejected by the refresh handler's type comparison both
receive a 401, but with different bodies — the `detail` field names the
rejecting component, so not every pair of rejections yields the same
response. -/
theorem rejection_bodies_differ_across_components_cex :
    (jwtAuthenticatedUser cfgEx 100
        [{ key := 7, value := 0, expireAt := 99999 }] [1] (some true)
        (some { scheme := "Bearer", token := some refreshTokenEx })).decision
      = .reject .revoked
    ∧ (jwtAuthenticatedUser cfgEx 100
        [{ key := 7, value := 0, expireAt := 99999 }] [1] (some true)
        (some { scheme := "Bearer", token := some refreshTokenEx })).response
      = some middlewareUnauthorizedBody
    ∧ (replace cfgEx 1000 (some accessPayloadEx) (some accessTokenEx) [] 42).error
      = some .typeMismatch
    ∧ (replace cfgEx 1000 (some accessPayloadEx) (some accessTokenEx) [] 42).response
      = .unauthorized replaceUnauthorizedBody
    ∧ middlewareUnauthorizedBody ≠ replaceUnauthorizedBody := by
  decide

/-- C9 (amended): within each component every rejection is mapped to that
component's single fixed generic 401 body, independent of which check
failed — the distinguishing reason exists only in the internal log field;
but the middleware and the refresh handler use different fixed bodies, so
the rejecting component (not the check within it) is visible to the
caller. -/
theorem rejections_uniform_within_component :
    (∀ (cfg : Config) (now : Nat) (store : RedisStore) (users : List Nat)
        (flag : Option Bool) (auth : Option AuthHeader) (reason : RejectReason),
      (jwtAuthenticatedUser cfg now store users flag auth).decision = .reject reason →
      (jwtAuthenticatedUser cfg now store users flag auth).response
        = some middlewareUnauthorizedBody)
    ∧ (∀ (cfg : Config) (now : Nat) (p : JWTPayload) (body : Option Token)
        (store : RedisStore) (freshJti : Nat) (e : RefreshError),
      (replace cfg now (some p) body store freshJti).error = some e →
      (replace cfg now (some p) body store freshJti).response
        = .unauthorized replaceUnauthorizedBody) := by
  constructor
  · intro cfg now store users flag auth reason h
    cases htry : jwtAuthenticatedUserTry cfg now store users flag auth with
    | error r => simp [jwtAuthenticatedUser, htry]
    | ok v =>
      obtain ⟨p, u⟩ := v
      simp [jwtAuthenticatedUser, htry] at h
  · intro cfg now p body store freshJti e h
    cases htry : replaceTry cfg now p body freshJti with
    | ok v =>
      obtain ⟨a, r⟩ := v
      simp [replace, htry] at h
    | error e2 => simp [replace, htry]

theorem rejections_uniform_within_component_witness :
    (jwtAuthenticatedUser cfgEx 100 [] [] none none).response
      = some middlewareUnauthorizedBody
    ∧ (replace cfgEx 1000 (some accessPayloadEx) none [] 42).response
      = .unauthorized replaceUnauthorizedBody :=
  ⟨rejections_uniform_within_component.1 cfgEx 100 [] [] none none
      .missingCredential (by decide),
   rejections_uniform_within_component.2 cfgEx 1000 accessPayloadEx none [] 42
      .bodyMissing (by decide)⟩

/-- C10: the middleware attaches `currentUser` and `jwtPayload` only on the
accept path, after every check has passed, and sets both at once; on every
rejection path both request-context fields are left unset. -/
theorem middleware_ctx_only_set_on_accept
    (cfg : Config) (now : Nat) (store : RedisStore) (users : List Nat)
    (flag : Option Bool) (auth : Option AuthHeader) :
    (∀ reason,
      (jwtAuthenticatedUser cfg now store users flag auth).decision = .reject reason →
      (jwtAuthenticatedUser cfg now store users flag auth).ctx
        = { currentUser := none, jwtPayload := none }) ∧
    (∀ p u,
      (jwtAuthenticatedUser cfg now store users flag auth).decision = .accept p u →
      (jwtAuthenticatedUser cfg now store users flag auth).ctx
        = { currentUser := some u, jwtPayload := some p }) := by
  cases htry : jwtAuthenticatedUserTry cfg now store users flag auth with
  | error r =>
    refine ⟨fun reason hr => ?_, fun p u hp => ?_⟩
    · simp [jwtAuthenticatedUser, htry]
    · simp [jwtAuthenticatedUser, htry] at hp
  | ok v =>
    obtain ⟨p0, u0⟩ := v
    refine ⟨fun reason hr => ?_, fun p u hp => ?_⟩
    · simp [jwtAuthenticatedUser, htry] at hr
    · simp [jwtAuthenticatedUser, htry] at hp ⊢
      obtain ⟨rfl, rfl⟩ := hp
      exact ⟨rfl, rfl⟩

theorem middleware_ctx_only_set_on_accept_witness :
    (jwtAuthenticatedUser cfgEx 100 [] [] none none).ctx
      = { currentUser := none, jwtPayload := none }
    ∧ (jwtAuthenticatedUser cfgEx 100 [] [1] none
        (some { scheme := "Bearer", token := some accessTokenEx })).ctx
      = { currentUser := some 1, jwtPayload := some accessPayloadEx } :=
  ⟨(middleware_ctx_only_set_on_accept cfgEx 100 [] [] none none).1
      .missingCredential (by decide),
   (middleware_ctx_only_set_on_accept cfgEx 100 [] [1] none
      (some { scheme := "Bearer", token := some accessTokenEx })).2
      accessPayloadEx 1 (by decide)⟩

end AuthTutorial
